import Mathlib

/-!
Verification of the security-report-automation pipeline
(`core_functions.py`, `config.py`, `data_manager.py`, `main.py`).

The Python code is shallowly embedded: pure functions become Lean
functions, and every external effect (RSS feed fetch, the summarization
backend, the keyword-store file, file writes, the PDF renderer, SMTP
credentials) is threaded explicitly through an environment record, with
fallible calls modelled as `Except`.
-/

set_option maxRecDepth 4000

namespace SecReport

/-- A single-quote character as a string, used to build source-faithful
template fragments without apostrophe literals. -/
def sq : String := String.singleton (Char.ofNat 39)

/-! ## Configuration (`config.py`) -/

/-- `MAX_NEWS_ENTRIES = 100` from `config.py`. -/
def MAX_NEWS_ENTRIES : Nat := 100

/-- The two-tier risk word lists, from `RISK_KEYWORDS` in `config.py`. -/
structure RiskKeywords where
  RED : List String
  AMBER : List String

/-- `RISK_KEYWORDS` from `config.py` (lines 164-167). -/
def RISK_KEYWORDS : RiskKeywords :=
  { RED := ["사망", "침입", "해킹", "중대", "폭발", "재난"]
    AMBER := ["사고", "논란", "장애", "위험", "유출", "화재"] }

/-- `INITIAL_KEYWORDS` from `config.py`. -/
def INITIAL_KEYWORDS : List String :=
  ["KT텔레캅", "에스원", "쉴더스", "보안 사고", "안전 사고"]

/-! ## Strings as character lists: containment, as Python `in` -/

/-- `strStartsWith needle hay` mirrors Python string matching at the head:
the first list is an initial segment of the second. -/
def strStartsWith : List Char → List Char → Bool
  | [], _ => true
  | _ :: _, [] => false
  | a :: as, b :: bs => a = b && strStartsWith as bs

/-- `containsSub needle hay` is Python `needle in hay` on strings
(contiguous substring containment; the empty needle is contained in
everything). -/
def containsSub (needle : List Char) : List Char → Bool
  | [] => needle.isEmpty
  | b :: bs => strStartsWith needle (b :: bs) || containsSub needle bs

/-! ## Risk classifier (`analyze_risk`, `core_functions.py` 143-152) -/

/-- `title_norm = title.replace(" ", "")`: the source removes space
characters (U+0020) only. -/
def title_norm (title : String) : List Char :=
  title.toList.filter (fun c => c != ' ')

/-- The `for keyword in ...: if keyword in title_norm: return ...` loop of
`analyze_risk`: first match in list order wins. -/
def containsRiskWord (ws : List String) (tn : List Char) : Bool :=
  match ws with
  | [] => false
  | w :: rest => if containsSub w.toList tn then true else containsRiskWord rest tn

/-- `analyze_risk` from `core_functions.py` lines 143-152: normalize by
removing spaces, then RED list first, then AMBER list, else GREEN. -/
def analyze_risk (title : String) : String :=
  let tn := title_norm title
  if containsRiskWord RISK_KEYWORDS.RED tn then "RED"
  else if containsRiskWord RISK_KEYWORDS.AMBER tn then "AMBER"
  else "GREEN"

/-- Reference classifier following the spec text of §4.3, with the
amendment that normalization removes space characters: ordered RED list
first (any substring match returns RED), then AMBER, else GREEN. -/
def classify_ref (title : String) : String :=
  let tn := title_norm title
  if RISK_KEYWORDS.RED.any (fun w => containsSub w.toList tn) then "RED"
  else if RISK_KEYWORDS.AMBER.any (fun w => containsSub w.toList tn) then "AMBER"
  else "GREEN"

/-- Reference classifier exactly as the claim words it: normalization
first removes ALL whitespace from the title (not only spaces). -/
def classify_spec_ws (title : String) : String :=
  let tn := title.toList.filter (fun c => !c.isWhitespace)
  if RISK_KEYWORDS.RED.any (fun w => containsSub w.toList tn) then "RED"
  else if RISK_KEYWORDS.AMBER.any (fun w => containsSub w.toList tn) then "AMBER"
  else "GREEN"

theorem containsRiskWord_eq_any (ws : List String) (tn : List Char) :
    containsRiskWord ws tn = ws.any (fun w => containsSub w.toList tn) := by
  induction ws with
  | nil => rfl
  | cons w rest ih =>
    simp only [containsRiskWord, List.any_cons, ih]
    cases containsSub w.toList tn <;> simp

/-- `analyze_risk` always returns one of the three labels. -/
theorem analyze_risk_cases (t : String) :
    analyze_risk t = "RED" ∨ analyze_risk t = "AMBER" ∨ analyze_risk t = "GREEN" := by
  simp only [analyze_risk]
  split
  · exact Or.inl rfl
  · split
    · exact Or.inr (Or.inl rfl)
    · exact Or.inr (Or.inr rfl)

/-! ## Feed collection (`crawl_news`, `core_functions.py` 48-65) -/

/-- One entry of a parsed RSS feed, with the four fields `crawl_news`
reads (`entry.title`, `entry.link`, `entry.published`,
`entry.description`). -/
structure FeedEntry where
  title : String
  link : String
  published : String
  description : String
deriving DecidableEq, Repr

/-- The dict `crawl_news` appends per entry:
`{'title': ..., 'link': ..., 'published': ..., 'summary': entry.description}`. -/
structure NewsItem where
  title : String
  link : String
  published : String
  summary : String
deriving DecidableEq, Repr

/-- The per-entry dict construction inside `crawl_news`'s loop. -/
def toNewsItem (e : FeedEntry) : NewsItem :=
  { title := e.title, link := e.link, published := e.published, summary := e.description }

/-- `crawl_news` from `core_functions.py` lines 48-65. The fetch+parse of
the keyword's feed URL is modelled as `feeds keyword`; any exception in
the `try` block (`.error`) yields `[]`. On success the loop walks
`feed.entries[:MAX_NEWS_ENTRIES]` and builds the item dicts in order —
no deduplication is performed. -/
def crawl_news (feeds : String → Except Unit (List FeedEntry)) (keyword : String) :
    List NewsItem :=
  match feeds keyword with
  | .error _ => []
  | .ok entries => (entries.take MAX_NEWS_ENTRIES).map toNewsItem

/-! ## Summarizer (`summarize_news`, `core_functions.py` 67-95) -/

/-- The prompt string built by `summarize_news`: the first 10 item titles
as "- title" lines, inside the fixed template. -/
def mkPrompt (keyword : String) (news_items : List NewsItem) : String :=
  let titles := String.intercalate "\n" ((news_items.take 10).map (fun i => "- " ++ i.title))
  "다음은 " ++ sq ++ keyword ++ sq ++
    " 관련 주요 뉴스 제목들입니다. 이를 바탕으로 보안/안전 관점에서 핵심 내용을 3~5줄로 요약해줘:\n" ++
    titles

/-- `summarize_news` from `core_functions.py` lines 67-95. The OpenAI
chat-completion call is modelled as `backend prompt`; `apiKey` is
`os.getenv("OPENAI_API_KEY")` (Python treats both `None` and `""` as
missing). Empty item list returns the fixed no-news placeholder before
anything else; a backend exception returns the fixed failure
placeholder. -/
def summarize_news (backend : String → Except Unit String) (apiKey : Option String)
    (keyword : String) (news_items : List NewsItem) : String :=
  if news_items.isEmpty then "뉴스 없음"
  else
    match apiKey with
    | none => "AI 요약 실패 (API Key 없음)"
    | some key =>
      if key = "" then "AI 요약 실패 (API Key 없음)"
      else
        match backend (mkPrompt keyword news_items) with
        | .ok content => content.trim
        | .error _ => "AI 요약 중 오류 발생"

/-! ## Keyword store loading -/

/-- The keyword-store file as seen by a loader: `none` = file missing,
`some (.error ())` = file present but unreadable/not valid JSON,
`some (.ok ks)` = parsed JSON array of strings. -/
abbrev StoreFile := Option (Except Unit (List String))

/-- `load_keywords` from `core_functions.py` lines 31-39: missing file
gives `[]`; `json.JSONDecodeError`/`IOError` is caught and gives `[]`. -/
def load_keywords (store : StoreFile) : List String :=
  match store with
  | none => []
  | some (.error _) => []
  | some (.ok ks) => ks

/-- `load_keywords` from `data_manager.py` lines 25-38:
`FileNotFoundError` and `json.JSONDecodeError` are both caught and give
`INITIAL_KEYWORDS`. -/
def dm_load_keywords (store : StoreFile) : List String :=
  match store with
  | none => INITIAL_KEYWORDS
  | some (.error _) => INITIAL_KEYWORDS
  | some (.ok ks) => ks

/-! ## Dashboard generation (`generate_dashboard`, `core_functions.py` 154-715) -/

/-- One record of `all_news_data`, built in `execute`'s inner loop. -/
structure ClassifiedRecord where
  keyword : String
  title : String
  link : String
  date : String
  risk : String
deriving DecidableEq, Repr

/-- A hexadecimal digit, lowercase, as Python's `\uXXXX` escapes use. -/
def hexDigit (n : Nat) : Char :=
  if n < 10 then Char.ofNat (48 + n) else Char.ofNat (87 + n)

/-- Four-digit lowercase hex of a code point below 0x10000. -/
def hex4 (n : Nat) : String :=
  String.mk [hexDigit (n / 4096 % 16), hexDigit (n / 256 % 16),
             hexDigit (n / 16 % 16), hexDigit (n % 16)]

/-- Per-character JSON string escaping as `json.dumps(..., ensure_ascii=False)`
performs it: quote, backslash, the short control escapes, `\uXXXX` for the
remaining control characters, and every other character verbatim. -/
def jsonEscapeChar (c : Char) : String :=
  if c = '"' then "\\\""
  else if c = '\\' then "\\\\"
  else if c = '\n' then "\\n"
  else if c = '\t' then "\\t"
  else if c = '\r' then "\\r"
  else if c.toNat = 8 then "\\b"
  else if c.toNat = 12 then "\\f"
  else if c.toNat < 32 then "\\u" ++ hex4 c.toNat
  else String.singleton c

/-- JSON escaping of a whole string. -/
def jsonEscape (s : String) : String :=
  String.join (s.toList.map jsonEscapeChar)

/-- Serialization of one news record as `json.dumps` renders a dict with
these five keys (default separators). -/
def recordJson (r : ClassifiedRecord) : String :=
  "\x7b\"keyword\": \"" ++ jsonEscape r.keyword ++
  "\", \"title\": \"" ++ jsonEscape r.title ++
  "\", \"link\": \"" ++ jsonEscape r.link ++
  "\", \"date\": \"" ++ jsonEscape r.date ++
  "\", \"risk\": \"" ++ jsonEscape r.risk ++ "\"\x7d"

/-- `json.dumps(news_data, ensure_ascii=False)` over the record list. -/
def jsonDumps (rs : List ClassifiedRecord) : String :=
  "[" ++ String.intercalate ", " (rs.map recordJson) ++ "]"

/-- The `summary_html` accumulation loop of `generate_dashboard`:
one div per (keyword, text) pair of `summary_map`, in order. -/
def summaryHtml (summary_map : List (String × String)) : String :=
  summary_map.foldl
    (fun acc p =>
      acc ++ "<div class=" ++ sq ++ "mb-2" ++ sq ++ "><span class=" ++ sq ++
        "font-bold text-blue-700" ++ sq ++ ">• " ++ p.1 ++
        "</span>: <span class=" ++ sq ++ "text-gray-700" ++ sq ++ ">" ++ p.2 ++
        "</span></div>")
    ""

/-- Fixed template text of the dashboard page before the sidebar
timestamp (head, styles, sidebar markup), abbreviated. -/
def TPL_HEAD : String :=
  "<!DOCTYPE html><html lang=\"ko\"><head><title>Security Insight Pro</title></head><body><aside class=\"sidebar\"><p>Last Updated:</p><p class=\"font-mono text-slate-400\">"

/-- Fixed template text between the timestamp and the AI summary block,
abbreviated. -/
def TPL_MID1 : String :=
  "</p></aside><main class=\"main-content\"><h3>AI Executive Briefing</h3><div class=\"text-xs md:text-sm\">"

/-- Fixed template text between the summary block and the embedded data
(`const rawData = `), abbreviated. -/
def TPL_MID2 : String :=
  "</div><div id=\"news-container\"></div></main><script> const rawData = "

/-- Fixed template text after the embedded data (the page scripts),
abbreviated. -/
def TPL_TAIL : String :=
  "; let currentData = [...rawData]; init(); </script></body></html>"

/-- The output of `generate_dashboard`: the serialized news-data block
(`json_data`), the summary html, and the assembled page. -/
structure Dashboard where
  json_data : String
  summary_html : String
  html_content : String
deriving DecidableEq, Repr

/-- `generate_dashboard` from `core_functions.py` lines 154-715:
`json_data = json.dumps(news_data, ensure_ascii=False)`, then the
summary divs, then the page assembled from fixed template text with the
generation timestamp (`datetime.now().strftime(...)` = `nowStamp`)
interpolated in the sidebar, `summary_html` in the briefing section and
`json_data` in the script block. The write of `index.html` is done by
the caller model (`executeE`). -/
def generate_dashboard (news_data : List ClassifiedRecord)
    (summary_map : List (String × String)) (nowStamp : String) : Dashboard :=
  let json_data := jsonDumps news_data
  let summary_html := summaryHtml summary_map
  { json_data := json_data
    summary_html := summary_html
    html_content :=
      TPL_HEAD ++ nowStamp ++ TPL_MID1 ++ summary_html ++ TPL_MID2 ++ json_data ++ TPL_TAIL }

/-! ## The pipeline (`execute`, `core_functions.py` 717-798) -/

/-- The run environment: every external dependency of one `execute`
invocation, made explicit. -/
structure Env where
  /-- The keyword-store file read by `load_keywords`. -/
  store : StoreFile
  /-- Fetch+parse of the Google News RSS feed for a keyword. -/
  feeds : String → Except Unit (List FeedEntry)
  /-- `os.getenv("OPENAI_API_KEY")`. -/
  apiKey : Option String
  /-- The OpenAI chat-completion call, prompt to content. -/
  backend : String → Except Unit String
  /-- `datetime.strptime(published, "%a, %d %b %Y %H:%M:%S %Z")` followed
  by `strftime("%Y-%m-%d")`: `none` when parsing raises. -/
  parseDate : String → Option String
  /-- `datetime.now().strftime("%Y-%m-%d")`, the fallback date. -/
  nowDate : String
  /-- `datetime.now().strftime("%Y-%m-%d %H:%M")`, the dashboard stamp. -/
  nowStamp : String
  /-- `datetime.now().strftime("%Y%m%d")`, used in the PDF filename. -/
  nowCompact : String
  /-- Writing `index.html`; an `IOError` here propagates out of
  `generate_dashboard`. -/
  writeFile : String → Except Unit Unit
  /-- The Playwright PDF render block; exceptions there are caught. -/
  pdfRender : Except Unit Unit
  /-- `SMTP_USER`/`SMTP_PASSWORD`, when both present. -/
  smtpCreds : Option (String × String)

/-- The record `execute` appends to `all_news_data` for one item. -/
def mkRecord (env : Env) (keyword : String) (item : NewsItem) : ClassifiedRecord :=
  { keyword := keyword
    title := item.title
    link := item.link
    date := (env.parseDate item.published).getD env.nowDate
    risk := analyze_risk item.title }

/-- One iteration of `execute`'s inner item loop: classify, apply the
KT텔레캅 negative filter (`continue` drops the item), else build the
record. -/
def processItem (env : Env) (keyword : String) (item : NewsItem) :
    Option ClassifiedRecord :=
  let risk := analyze_risk item.title
  if keyword = "KT텔레캅" ∧ (risk = "RED" ∨ risk = "AMBER") then none
  else some (mkRecord env keyword item)

/-- Python-dict insertion `m[k] = v` on an insertion-ordered assoc list:
an existing key keeps its position and gets the new value, a new key is
appended. -/
def dictInsert (m : List (String × String)) (k v : String) : List (String × String) :=
  if m.any (fun p => p.1 = k) then m.map (fun p => if p.1 = k then (k, v) else p)
  else m ++ [(k, v)]

/-- Lookup in an insertion-ordered assoc list (Python `m[k]`). -/
def lookupS (k : String) : List (String × String) → Option String
  | [] => none
  | p :: rest => if p.1 = k then some p.2 else lookupS k rest

/-- The accumulated state of `execute`'s keyword loop:
`all_news_data` and `summary_map`. -/
structure RunResult where
  records : List ClassifiedRecord
  summaries : List (String × String)
deriving DecidableEq, Repr

/-- One iteration of `execute`'s keyword loop: crawl, classify+filter
each item into `all_news_data`, then summarize the FULL crawled list
into `summary_map`. -/
def stepKeyword (env : Env) (acc : RunResult) (keyword : String) : RunResult :=
  let news_items := crawl_news env.feeds keyword
  { records := acc.records ++ news_items.filterMap (processItem env keyword)
    summaries :=
      dictInsert acc.summaries keyword
        (summarize_news env.backend env.apiKey keyword news_items) }

/-- `execute`'s `for keyword in keywords` loop. -/
def run_loop (env : Env) (acc : RunResult) : List String → RunResult
  | [] => acc
  | k :: rest => run_loop env (stepKeyword env acc k) rest

/-- Observable export actions of one run. -/
inductive Effect where
  | dashboard (html : String)
  | pdf (path : String)
  | email (path : String)
deriving DecidableEq, Repr

/-- `send_email` from `core_functions.py` lines 97-141: skips (returns
without effect) when SMTP credentials are absent; transport errors
inside are caught, so the call never raises. -/
def send_email (creds : Option (String × String)) (path : String) : List Effect :=
  match creds with
  | none => []
  | some _ => [Effect.email path]

/-- `execute` from `core_functions.py` lines 717-798. Loads keywords; an
empty list returns immediately. Otherwise runs the keyword loop, writes
the dashboard (a failing write propagates, the only uncaught failure),
attempts the Playwright PDF render (failure caught, email then skipped),
and emails the PDF when it was produced. -/
def executeE (env : Env) : Except Unit (List Effect × RunResult) :=
  let keywords := load_keywords env.store
  if keywords.isEmpty then .ok ([], ⟨[], []⟩)
  else
    let rr := run_loop env ⟨[], []⟩ keywords
    let dash := generate_dashboard rr.records rr.summaries env.nowStamp
    match env.writeFile dash.html_content with
    | .error e => .error e
    | .ok _ =>
      let pdfPath := "Security_Report_" ++ env.nowCompact ++ ".pdf"
      match env.pdfRender with
      | .ok _ =>
        .ok ([Effect.dashboard dash.html_content, Effect.pdf pdfPath] ++
              send_email env.smtpCreds pdfPath, rr)
      | .error _ => .ok ([Effect.dashboard dash.html_content], rr)

/-- The GitHub-Actions branch of `start_application` (`main.py` 149-164):
the process exit status is non-zero exactly when `execute` raises. -/
def start_application_batch (env : Env) : Nat :=
  match executeE env with
  | .ok _ => 0
  | .error _ => 1

/-! ## Loop-shape lemmas for `execute` -/

/-- The classified records one keyword contributes to `all_news_data`. -/
def keywordRecords (env : Env) (k : String) : List ClassifiedRecord :=
  (crawl_news env.feeds k).filterMap (processItem env k)

/-- `all_news_data` as accumulated over a keyword list. -/
def allRecords (env : Env) : List String → List ClassifiedRecord
  | [] => []
  | k :: rest => keywordRecords env k ++ allRecords env rest

/-- The summary `execute` computes for one keyword: the backend digest of
the keyword's full crawled item list. -/
def gSumm (env : Env) (k : String) : String :=
  summarize_news env.backend env.apiKey k (crawl_news env.feeds k)

/-- `summary_map` as accumulated (with dict semantics) over a keyword
list. -/
def summFold (env : Env) : List (String × String) → List String → List (String × String)
  | m, [] => m
  | m, k :: rest => summFold env (dictInsert m k (gSumm env k)) rest

theorem run_loop_records (env : Env) (ks : List String) :
    ∀ acc : RunResult, (run_loop env acc ks).records = acc.records ++ allRecords env ks := by
  induction ks with
  | nil => intro acc; simp [run_loop, allRecords]
  | cons k rest ih =>
    intro acc
    simp [run_loop, allRecords, stepKeyword, ih, keywordRecords, List.append_assoc]

theorem run_loop_summaries (env : Env) (ks : List String) :
    ∀ acc : RunResult, (run_loop env acc ks).summaries = summFold env acc.summaries ks := by
  induction ks with
  | nil => intro acc; rfl
  | cons k rest ih =>
    intro acc
    simp [run_loop, summFold, stepKeyword, ih, gSumm]

theorem mem_allRecords (env : Env) (r : ClassifiedRecord) :
    ∀ ks : List String, r ∈ allRecords env ks ↔ ∃ k, k ∈ ks ∧ r ∈ keywordRecords env k := by
  intro ks
  induction ks with
  | nil => simp [allRecords]
  | cons k rest ih =>
    simp only [allRecords, List.mem_append, ih, List.mem_cons]
    constructor
    · rintro (h | ⟨k', hk', hr'⟩)
      · exact ⟨k, Or.inl rfl, h⟩
      · exact ⟨k', Or.inr hk', hr'⟩
    · rintro ⟨k', (rfl | hk'), hr'⟩
      · exact Or.inl hr'
      · exact Or.inr ⟨k', hk', hr'⟩

theorem processItem_eq_some (env : Env) (k : String) (item : NewsItem)
    (r : ClassifiedRecord) (h : processItem env k item = some r) :
    r = mkRecord env k item ∧
    ¬ (k = "KT텔레캅" ∧ (analyze_risk item.title = "RED" ∨ analyze_risk item.title = "AMBER")) := by
  simp only [processItem] at h
  split at h
  · exact absurd h (by simp)
  · exact ⟨(Option.some.inj h).symm, by assumption⟩

theorem processItem_of_not (env : Env) (k : String) (item : NewsItem)
    (h : ¬ (k = "KT텔레캅" ∧ (analyze_risk item.title = "RED" ∨ analyze_risk item.title = "AMBER"))) :
    processItem env k item = some (mkRecord env k item) := by
  simp only [processItem]
  rw [if_neg h]

/-! ## Dict-lookup lemmas -/

theorem lookupS_eq_none_of_any_false (k : String) (m : List (String × String))
    (h : m.any (fun p => p.1 = k) = false) : lookupS k m = none := by
  induction m with
  | nil => rfl
  | cons p rest ih =>
    simp only [List.any_cons, Bool.or_eq_false_iff] at h
    simp only [lookupS]
    rw [if_neg (by simpa using h.1)]
    exact ih h.2

theorem lookupS_append_of_none (k : String) (m l : List (String × String))
    (h : lookupS k m = none) : lookupS k (m ++ l) = lookupS k l := by
  induction m with
  | nil => rfl
  | cons p rest ih =>
    by_cases hp : p.1 = k
    · simp [lookupS, hp] at h
    · simp only [lookupS, if_neg hp] at h
      simp only [List.cons_append, lookupS, if_neg hp]
      exact ih h

theorem lookupS_map_update (k v : String) (m : List (String × String)) :
    lookupS k (m.map (fun p => if p.1 = k then (k, v) else p)) =
      (lookupS k m).map (fun _ => v) := by
  induction m with
  | nil => rfl
  | cons p rest ih =>
    by_cases hp : p.1 = k
    · simp [lookupS, hp]
    · simp [lookupS, hp, ih]

theorem lookupS_isSome_of_any_true (k : String) (m : List (String × String))
    (h : m.any (fun p => p.1 = k) = true) : (lookupS k m).isSome = true := by
  induction m with
  | nil => simp at h
  | cons p rest ih =>
    simp only [List.any_cons, Bool.or_eq_true] at h
    by_cases hp : p.1 = k
    · simp [lookupS, hp]
    · simp only [lookupS, if_neg hp]
      exact ih (h.resolve_left (by simpa using hp))

theorem lookupS_dictInsert_self (m : List (String × String)) (k v : String) :
    lookupS k (dictInsert m k v) = some v := by
  unfold dictInsert
  split
  · rename_i h
    rw [lookupS_map_update]
    have hs := lookupS_isSome_of_any_true k m h
    cases hm : lookupS k m with
    | none => rw [hm] at hs; simp at hs
    | some w => simp
  · rename_i h
    rw [lookupS_append_of_none k m _
        (lookupS_eq_none_of_any_false k m (Bool.eq_false_iff.mpr h))]
    simp [lookupS]

theorem lookupS_map_update_ne (kq kIns v : String) (m : List (String × String))
    (h : kq ≠ kIns) :
    lookupS kq (m.map (fun p => if p.1 = kIns then (kIns, v) else p)) = lookupS kq m := by
  induction m with
  | nil => rfl
  | cons p rest ih =>
    by_cases hp : p.1 = kIns
    · have h1 : ¬ kIns = kq := fun hc => h hc.symm
      have h2 : ¬ p.1 = kq := fun hc => h1 (hp.symm.trans hc)
      simp only [List.map_cons, if_pos hp, lookupS, if_neg h1, if_neg h2, ih]
    · simp only [List.map_cons, if_neg hp, lookupS, ih]

theorem lookupS_append_single_ne (kq kIns v : String) (m : List (String × String))
    (h : kq ≠ kIns) : lookupS kq (m ++ [(kIns, v)]) = lookupS kq m := by
  induction m with
  | nil =>
    simp only [List.nil_append, lookupS]
    rw [if_neg (fun hc : kIns = kq => h hc.symm)]
  | cons p rest ih =>
    by_cases hp : p.1 = kq
    · simp only [List.cons_append, lookupS, if_pos hp]
    · simp only [List.cons_append, lookupS, if_neg hp]
      exact ih

theorem lookupS_dictInsert_ne (m : List (String × String)) (kIns v kq : String)
    (h : kq ≠ kIns) : lookupS kq (dictInsert m kIns v) = lookupS kq m := by
  unfold dictInsert
  split
  · exact lookupS_map_update_ne kq kIns v m h
  · exact lookupS_append_single_ne kq kIns v m h

theorem lookupS_summFold_pres (env : Env) (k : String) (ks : List String) :
    ∀ m, lookupS k m = some (gSumm env k) →
      lookupS k (summFold env m ks) = some (gSumm env k) := by
  induction ks with
  | nil => intro m h; exact h
  | cons k0 rest ih =>
    intro m h
    show lookupS k (summFold env (dictInsert m k0 (gSumm env k0)) rest) = _
    by_cases hk : k = k0
    · subst hk
      exact ih _ (lookupS_dictInsert_self m k (gSumm env k))
    · exact ih _ (by rw [lookupS_dictInsert_ne m k0 _ k hk]; exact h)

theorem lookupS_summFold_mem (env : Env) (k : String) :
    ∀ ks : List String, k ∈ ks →
      ∀ m, lookupS k (summFold env m ks) = some (gSumm env k) := by
  intro ks
  induction ks with
  | nil => intro hk; cases hk
  | cons k0 rest ih =>
    intro hk m
    show lookupS k (summFold env (dictInsert m k0 (gSumm env k0)) rest) = _
    rcases List.mem_cons.mp hk with h0 | hrest
    · subst h0
      exact lookupS_summFold_pres env k rest _ (lookupS_dictInsert_self m k (gSumm env k))
    · exact ih hrest _

/-! ## Shape of a successful run -/

theorem executeE_ok_snd (env : Env) (p : List Effect × RunResult)
    (hp : executeE env = .ok p) :
    p.2 = run_loop env ⟨[], []⟩ (load_keywords env.store) := by
  simp only [executeE] at hp
  split at hp
  · rename_i hE
    have hnil : load_keywords env.store = [] := by simpa using hE
    rw [hnil]
    simpa [run_loop] using congrArg Prod.snd (Except.ok.inj hp).symm
  · split at hp
    · exact absurd hp (by simp)
    · split at hp
      · simpa using congrArg Prod.snd (Except.ok.inj hp).symm
      · simpa using congrArg Prod.snd (Except.ok.inj hp).symm

theorem executeE_load_empty (env : Env) (h : load_keywords env.store = []) :
    executeE env = .ok ([], ⟨[], []⟩) := by
  simp only [executeE, h]
  rfl

/-! ## Concrete inputs used by counterexamples and witnesses -/

/-- A feed entry whose title carries a RED trigger word (해킹) and an
AMBER trigger word (사고). -/
def entryRed : FeedEntry :=
  { title := "해킹 사고 발생", link := "https://news.example/red"
    published := "Mon, 06 Jan 2025 10:00:00 GMT", description := "d1" }

/-- A feed entry whose title carries no trigger word. -/
def entryGreen : FeedEntry :=
  { title := "신제품 출시 행사 개최", link := "https://news.example/green"
    published := "Tue, 07 Jan 2025 10:00:00 GMT", description := "d2" }

/-- A feed entry used to build a feed that yields the same (title, link)
twice. -/
def dupEntry : FeedEntry :=
  { title := "보안 사고 발생", link := "https://news.example/dup"
    published := "Mon, 06 Jan 2025 10:00:00 GMT", description := "d" }

/-- A feed source that returns the same entry twice for every keyword. -/
def dupFeeds : String → Except Unit (List FeedEntry) := fun _ => .ok [dupEntry, dupEntry]

/-- A feed source that always fails. -/
def errFeeds : String → Except Unit (List FeedEntry) := fun _ => .error ()

/-- A feed source failing on keyword "X" only. -/
def feedsA : String → Except Unit (List FeedEntry) := fun k =>
  if k = "X" then .error () else .ok [entryGreen]

/-- A feed source that always succeeds with one entry. -/
def feedsB : String → Except Unit (List FeedEntry) := fun _ => .ok [entryGreen]

/-- Feed source of the demo run: the suppressed keyword gets one RED and
one GREEN item, 에스원 gets one RED item. -/
def demoFeeds : String → Except Unit (List FeedEntry) := fun k =>
  if k = "KT텔레캅" then .ok [entryRed, entryGreen]
  else if k = "에스원" then .ok [entryRed]
  else .ok []

/-- A fully concrete run environment with two keywords. -/
def envDemo : Env :=
  { store := some (.ok ["KT텔레캅", "에스원"])
    feeds := demoFeeds
    apiKey := none
    backend := fun _ => .error ()
    parseDate := fun _ => none
    nowDate := "2026-10-12"
    nowStamp := "2026-10-12 09:00"
    nowCompact := "20261012"
    writeFile := fun _ => .ok ()
    pdfRender := .error ()
    smtpCreds := none }

/-- The run result of the demo environment. -/
def rrDemo : RunResult := run_loop envDemo ⟨[], []⟩ ["KT텔레캅", "에스원"]

/-- The full successful output of the demo environment (PDF render
fails, so only the dashboard effect occurs). -/
def pDemo : List Effect × RunResult :=
  ([Effect.dashboard
      (generate_dashboard rrDemo.records rrDemo.summaries envDemo.nowStamp).html_content],
   rrDemo)

/-- The demo environment with an empty keyword store. -/
def envEmpty : Env := { envDemo with store := some (.ok []) }

/-- The demo environment whose keyword-store file is present but not
valid JSON. -/
def envCorrupt : Env := { envDemo with store := some (.error ()) }

/-! ## Claims -/

/-- Claim C1, counterexample: the claim's reference definition removes
ALL whitespace before matching, but `analyze_risk` removes only space
characters, so on the title "해(tab)킹" the code returns GREEN while the
reference returns RED (tab removal exposes the RED word 해킹). -/
theorem claim_C1_counterexample :
    analyze_risk "해\t킹" = "GREEN" ∧ classify_spec_ws "해\t킹" = "RED" ∧
      analyze_risk "해\t킹" ≠ classify_spec_ws "해\t킹" := by
  refine ⟨rfl, rfl, ?_⟩
  decide

/-- Claim C1 (amended): `analyze_risk` equals the reference definition
in which normalization removes space characters (U+0020) only — ordered
RED list first, any substring match returns RED immediately, then the
AMBER list, else GREEN; and any title containing both a RED-list and an
AMBER-list substring after space removal classifies as RED. -/
theorem claim_C1_classifier_refines_reference :
    (∀ t : String, analyze_risk t = classify_ref t) ∧
    (∀ t : String,
      containsRiskWord RISK_KEYWORDS.RED (title_norm t) = true →
      containsRiskWord RISK_KEYWORDS.AMBER (title_norm t) = true →
      analyze_risk t = "RED") := by
  constructor
  · intro t
    simp only [analyze_risk, classify_ref, containsRiskWord_eq_any]
  · intro t hR _
    simp [analyze_risk, hR]

/-- Witness for C1: concrete applications of both parts of the amended
claim — 해킹 사고 발생 carries the RED word 해킹 and the AMBER word 사고
and classifies RED. -/
theorem claim_C1_witness :
    analyze_risk "해킹 사고 발생" = "RED" ∧
      analyze_risk "화재 위험" = classify_ref "화재 위험" :=
  ⟨claim_C1_classifier_refines_reference.2 "해킹 사고 발생" (by decide) (by decide),
   claim_C1_classifier_refines_reference.1 "화재 위험"⟩

/-- Claim C9: classification is deterministic — equal titles get equal
labels, and the label is always one of RED, AMBER, GREEN. -/
theorem claim_C9_deterministic (t1 t2 : String) (h : t1 = t2) :
    analyze_risk t1 = analyze_risk t2 ∧
      (analyze_risk t1 = "RED" ∨ analyze_risk t1 = "AMBER" ∨ analyze_risk t1 = "GREEN") :=
  ⟨h ▸ rfl, analyze_risk_cases t1⟩

/-- Witness for C9 at a concrete title. -/
theorem claim_C9_witness :
    analyze_risk "화재 발생" = analyze_risk "화재 발생" ∧
      (analyze_risk "화재 발생" = "RED" ∨ analyze_risk "화재 발생" = "AMBER" ∨
        analyze_risk "화재 발생" = "GREEN") :=
  claim_C9_deterministic "화재 발생" "화재 발생" rfl

/-- Claim C3, counterexample: `crawl_news` performs no (title, link)
deduplication — a feed yielding the same (title, link) twice produces
two identical NewsItems in the returned list. -/
theorem claim_C3_counterexample :
    crawl_news dupFeeds "보안 사고" = [toNewsItem dupEntry, toNewsItem dupEntry] ∧
    (crawl_news dupFeeds "보안 사고").map (fun it => (it.title, it.link)) =
      [("보안 사고 발생", "https://news.example/dup"),
       ("보안 사고 발생", "https://news.example/dup")] ∧
    ¬ List.Pairwise (fun a b : NewsItem => (a.title, a.link) ≠ (b.title, b.link))
        (crawl_news dupFeeds "보안 사고") := by
  refine ⟨rfl, rfl, ?_⟩
  decide

/-- Claim C3 (amended): `crawl_news` applies no deduplication — on a
successful fetch it returns exactly the first `MAX_NEWS_ENTRIES` feed
entries mapped to NewsItems in feed order, duplicates included. -/
theorem claim_C3_no_dedup (feeds : String → Except Unit (List FeedEntry))
    (k : String) (entries : List FeedEntry) (h : feeds k = .ok entries) :
    crawl_news feeds k = (entries.take MAX_NEWS_ENTRIES).map toNewsItem := by
  unfold crawl_news
  rw [h]

/-- Witness for C3 at the duplicate feed. -/
theorem claim_C3_witness :
    crawl_news dupFeeds "보안 사고" =
      ([dupEntry, dupEntry].take MAX_NEWS_ENTRIES).map toNewsItem :=
  claim_C3_no_dedup dupFeeds "보안 사고" [dupEntry, dupEntry] rfl

/-- Claim C4: a failing feed fetch for a keyword makes `crawl_news`
return the empty list instead of propagating, and the collection for any
keyword depends only on that keyword's own feed response, so one
keyword's failure cannot affect another's collection. -/
theorem claim_C4_fail_soft :
    (∀ (feeds : String → Except Unit (List FeedEntry)) (k : String) (e : Unit),
        feeds k = .error e → crawl_news feeds k = []) ∧
    (∀ (feeds feeds' : String → Except Unit (List FeedEntry)) (k : String),
        feeds k = feeds' k → crawl_news feeds k = crawl_news feeds' k) := by
  constructor
  · intro feeds k e h
    unfold crawl_news
    rw [h]
  · intro feeds feeds' k h
    unfold crawl_news
    rw [h]

/-- Witness for C4: a concrete failing feed returns no items, and a feed
source that differs only on the failing keyword "X" collects identically
on 에스원. -/
theorem claim_C4_witness :
    crawl_news errFeeds "X" = [] ∧
      crawl_news feedsA "에스원" = crawl_news feedsB "에스원" :=
  ⟨claim_C4_fail_soft.1 errFeeds "X" () rfl,
   claim_C4_fail_soft.2 feedsA feedsB "에스원" rfl⟩

/-- Claim C5: `summarize_news` never raises — an empty item list returns
the fixed no-news placeholder whatever the backend and key are (so no
external call is consulted), and with a non-empty list and a present key
a failing backend call yields the fixed failure placeholder. -/
theorem claim_C5_summarizer_total :
    (∀ (b : String → Except Unit String) (key : Option String) (k : String),
        summarize_news b key k [] = "뉴스 없음") ∧
    (∀ (b b' : String → Except Unit String) (key key' : Option String) (k : String),
        summarize_news b key k [] = summarize_news b' key' k []) ∧
    (∀ (b : String → Except Unit String) (key k : String) (items : List NewsItem),
        items ≠ [] → key ≠ "" → b (mkPrompt k items) = .error () →
        summarize_news b (some key) k items = "AI 요약 중 오류 발생") := by
  refine ⟨fun b key k => rfl, fun b b' key key' k => rfl, ?_⟩
  intro b key k items hne hkey hb
  have hE : items.isEmpty = false := by
    cases items with
    | nil => exact absurd rfl hne
    | cons a l => rfl
  simp only [summarize_news, hE, Bool.false_eq_true, if_false, if_neg hkey, hb]

/-- Witness for C5: a concrete failing backend yields the failure
placeholder on one item, and the empty list yields the no-news
placeholder. -/
theorem claim_C5_witness :
    summarize_news (fun _ => .error ()) (some "sk-test") "에스원"
        [toNewsItem entryRed] = "AI 요약 중 오류 발생" ∧
      summarize_news (fun _ => .error ()) (some "sk-test") "에스원" [] = "뉴스 없음" :=
  ⟨claim_C5_summarizer_total.2.2 (fun _ => .error ()) "sk-test" "에스원"
      [toNewsItem entryRed] (by decide) (by decide) rfl,
   claim_C5_summarizer_total.1 (fun _ => .error ()) (some "sk-test") "에스원"⟩

/-- Claim C2: in every successful run, no record for the designated
keyword KT텔레캅 carries risk RED or AMBER (such items are dropped, not
re-labeled), while every collected item not hit by the suppression rule
— GREEN items of KT텔레캅 and all items of every other keyword — has its
record in the output list. -/
theorem claim_C2_suppression (env : Env) (p : List Effect × RunResult)
    (hp : executeE env = .ok p) :
    (∀ r ∈ p.2.records, r.keyword = "KT텔레캅" → r.risk ≠ "RED" ∧ r.risk ≠ "AMBER") ∧
    (∀ k ∈ load_keywords env.store, ∀ item ∈ crawl_news env.feeds k,
      ¬ (k = "KT텔레캅" ∧ (analyze_risk item.title = "RED" ∨ analyze_risk item.title = "AMBER")) →
      mkRecord env k item ∈ p.2.records) := by
  have hrec : p.2.records = allRecords env (load_keywords env.store) := by
    rw [executeE_ok_snd env p hp, run_loop_records]
    exact List.nil_append _
  constructor
  · intro r hr hkw
    rw [hrec] at hr
    rcases (mem_allRecords env r _).mp hr with ⟨k, _, hkr⟩
    rcases List.mem_filterMap.mp hkr with ⟨item, _, hproc⟩
    rcases processItem_eq_some env k item r hproc with ⟨hre, hcond⟩
    have hkk : k = "KT텔레캅" := by rw [hre] at hkw; exact hkw
    have hna : ¬ (analyze_risk item.title = "RED" ∨ analyze_risk item.title = "AMBER") :=
      fun hOr => hcond ⟨hkk, hOr⟩
    rw [hre]
    exact ⟨fun hR => hna (Or.inl hR), fun hA => hna (Or.inr hA)⟩
  · intro k hk item hitem hcond
    rw [hrec]
    exact (mem_allRecords env _ _).mpr
      ⟨k, hk, List.mem_filterMap.mpr ⟨item, hitem, processItem_of_not env k item hcond⟩⟩

/-- Witness for C2: in the demo run, the GREEN item of the suppressed
keyword KT텔레캅 does appear in the output records. -/
theorem claim_C2_witness :
    mkRecord envDemo "KT텔레캅" (toNewsItem entryGreen) ∈ pDemo.2.records :=
  (claim_C2_suppression envDemo pDemo (by rfl)).2 "KT텔레캅" (by decide)
    (toNewsItem entryGreen) (by decide) (by decide)

/-- Claim C6: with an empty keyword list, `execute` terminates
immediately with an empty record list and an empty summary map and no
exporter effect at all — a no-op run, not an error. -/
theorem claim_C6_empty_noop (env : Env) (h : load_keywords env.store = []) :
    executeE env = .ok ([], ⟨[], []⟩) :=
  executeE_load_empty env h

/-- Witness for C6 at a concrete environment whose store holds `[]`. -/
theorem claim_C6_witness : executeE envEmpty = .ok ([], ⟨[], []⟩) :=
  claim_C6_empty_noop envEmpty rfl

/-- Claim C7, counterexample: with the keyword-store file present but
not valid JSON, `load_keywords` silently returns the empty list, the run
completes as a no-op, and the batch-mode process exit status is 0 — the
run is NOT aborted with a non-zero status as the claim requires. -/
theorem claim_C7_counterexample :
    load_keywords envCorrupt.store = [] ∧
      start_application_batch envCorrupt = 0 ∧
      executeE envCorrupt = .ok ([], ⟨[], []⟩) :=
  ⟨rfl, rfl, rfl⟩

/-- Claim C7 (amended): a corrupt (not-valid-JSON) keyword-store file
does not abort the run — `core_functions.load_keywords` silently
substitutes the empty list (so the run completes as a no-op),
`data_manager.load_keywords` silently substitutes the initial default
keyword list, and the non-interactive process exit status is 0. -/
theorem claim_C7_corrupt_store_silent (env : Env) (h : env.store = some (.error ())) :
    load_keywords env.store = [] ∧
      dm_load_keywords env.store = INITIAL_KEYWORDS ∧
      start_application_batch env = 0 := by
  have hl : load_keywords env.store = [] := by rw [h]; rfl
  refine ⟨hl, by rw [h]; rfl, ?_⟩
  unfold start_application_batch
  rw [executeE_load_empty env hl]

/-- Witness for C7 at the concrete corrupt environment. -/
theorem claim_C7_witness :
    load_keywords envCorrupt.store = [] ∧
      dm_load_keywords envCorrupt.store = INITIAL_KEYWORDS ∧
      start_application_batch envCorrupt = 0 :=
  claim_C7_corrupt_store_silent envCorrupt rfl

/-- Claim C8: the embedded structured-data block of the generated
dashboard is a function of the RunResult's record list alone — two
generations from the identical RunResult at different timestamps embed
byte-for-byte identical `json_data`, the timestamp entering the page
only outside that block. -/
theorem claim_C8_dashboard_idempotent (d : List ClassifiedRecord)
    (s : List (String × String)) (t1 t2 : String) :
    (generate_dashboard d s t1).json_data = (generate_dashboard d s t2).json_data ∧
    (generate_dashboard d s t1).json_data = jsonDumps d ∧
    (generate_dashboard d s t1).html_content =
      TPL_HEAD ++ t1 ++ TPL_MID1 ++ summaryHtml s ++ TPL_MID2 ++ jsonDumps d ++ TPL_TAIL :=
  ⟨rfl, rfl, rfl⟩

/-- Claim C10: in every successful run, each keyword's summary-map entry
is the summary of the keyword's FULL crawled item list (as returned by
`crawl_news`), not of the suppression-filtered record list. -/
theorem claim_C10_summary_uses_full_list (env : Env) (p : List Effect × RunResult)
    (hp : executeE env = .ok p) (k : String) (hk : k ∈ load_keywords env.store) :
    lookupS k p.2.summaries =
      some (summarize_news env.backend env.apiKey k (crawl_news env.feeds k)) := by
  have hs : p.2.summaries = summFold env [] (load_keywords env.store) := by
    rw [executeE_ok_snd env p hp, run_loop_summaries]
  rw [hs]
  exact lookupS_summFold_mem env k _ hk []

/-- Witness for C10: in the demo run the 에스원 summary entry is the
digest of its full crawled list. -/
theorem claim_C10_witness :
    lookupS "에스원" pDemo.2.summaries =
      some (summarize_news envDemo.backend envDemo.apiKey "에스원"
        (crawl_news envDemo.feeds "에스원")) :=
  claim_C10_summary_uses_full_list envDemo pDemo (by rfl) "에스원" (by decide)

end SecReport
